import Mathlib

/-!
A shallow embedding of `mcp_server.py` (class `MCPServer`): the message
dispatch loop, the correlation store (`sampling_requests`,
`pending_tool_requests`, `request_id_counter`) and the protocol handlers.

JSON values are modelled by the inductive `Json`; numbers are rationals so
that both the integer request ids and the float literal `0.7` of the source
are representable.  Python dictionaries with integer keys are modelled as
association lists `List (Int × Json)` (Python dict keys are unique; the
operations below preserve that).  Python exceptions (KeyError, TypeError,
AttributeError) are modelled with `Except String`; an exception escaping a
handler is the `Option String` component of a handler's result, which the
run loop catches and logs (logging itself is an external collaborator per
the spec and is not modelled).
-/

inductive Json where
  | null
  | bool (b : Bool)
  | num (q : Rat)
  | str (s : String)
  | arr (xs : List Json)
  | obj (fields : List (String × Json))

/-- Python truthiness of a json-decoded value (`if method:`). -/
def Json.truthy : Json → Bool
  | .null => false
  | .bool b => b
  | .num q => q != 0
  | .str s => s != ""
  | .arr xs => !xs.isEmpty
  | .obj fs => !fs.isEmpty

/-- Python truthiness of `dict.pop(k, None)`: `None` is falsy. -/
def pyTruthyOpt : Option Json → Bool
  | none => false
  | some j => j.truthy

/-- `x.get(k)` — a method of `dict` only; on any other value it raises
`AttributeError`.  A missing key yields Python `None` (= `Json.null`,
matching how json `null` decodes). -/
def Json.pyGet : Json → String → Except String Json
  | .obj fs, k => .ok ((fs.lookup k).getD .null)
  | _, _ => .error "AttributeError: object has no attribute get"

/-- `x[k]` with a string key — `KeyError` on a dict missing the key,
`TypeError` on anything that is not a dict. -/
def Json.pyItem : Json → String → Except String Json
  | .obj fs, k =>
    match fs.lookup k with
    | some v => .ok v
    | none => .error ("KeyError: " ++ k)
  | _, _ => .error "TypeError: value is not subscriptable with a str key"

/-- Python `==` between a json-decoded value and a string literal:
only a str can equal a str; every other comparison is `False`. -/
def jsonEqStr : Json → String → Bool
  | .str s, t => s == t
  | _, _ => false

/-- Does `pat` occur at the head of `xs`? -/
def leadMatch : List Char → List Char → Bool
  | [], _ => true
  | _ :: _, [] => false
  | p :: ps, x :: xs => p = x && leadMatch ps xs

/-- Does `pat` occur anywhere in `xs`? -/
def subListMatch (pat : List Char) : List Char → Bool
  | [] => pat.isEmpty
  | x :: xs => leadMatch pat (x :: xs) || subListMatch pat xs

/-- Substring test, for Python `key in someString` (the empty pattern is in
every string). -/
def strContainsSub (s pat : String) : Bool :=
  if pat = "" then true else subListMatch pat.data s.data

/-- Python `k in x` for a string literal `k`: key test on a dict,
substring test on a str, membership on a list, `TypeError` otherwise. -/
def Json.pyContains : Json → String → Except String Bool
  | .obj fs, k => .ok (fs.any (fun p => p.1 == k))
  | .str s, k => .ok (strContainsSub s k)
  | .arr xs, k => .ok (xs.any (fun x => jsonEqStr x k))
  | _, _ => .error "TypeError: argument is not iterable"

/-- Using a json-decoded value as a dict key: lists and dicts are
unhashable and raise `TypeError`; everything else is hashable. -/
def pyHashable : Json → Except String Unit
  | .arr _ => .error "TypeError: unhashable type: list"
  | .obj _ => .error "TypeError: unhashable type: dict"
  | _ => .ok ()

/-- Python key equality of a (hashable) json value against an int dict key:
numbers compare by value (`1000.0 == 1000`), `True`/`False` equal `1`/`0`,
strings and `None` never equal an int. -/
def pyEqKey : Json → Int → Bool
  | .num q, k => decide (q = (k : Rat))
  | .bool b, k => decide ((if b then (1 : Int) else 0) = k)
  | _, _ => false

/-- `k in d` for an int-keyed dict. -/
def dictHasKey (l : List (Int × Json)) (idj : Json) : Bool :=
  l.any (fun p => pyEqKey idj p.1)

/-- `d.pop(k, default)` / guarded `d.pop(k)`: the removed value (if any)
and the remaining dict. -/
def dictPop (l : List (Int × Json)) (idj : Json) : Option Json × List (Int × Json) :=
  match l.find? (fun p => pyEqKey idj p.1) with
  | some p => (some p.2, l.eraseP (fun q => pyEqKey idj q.1))
  | none => (none, l)

/-- `d[k] = v` with an int key: replace in place if present, else append
(Python dicts preserve insertion order). -/
def dictInsert (l : List (Int × Json)) (k : Int) (v : Json) : List (Int × Json) :=
  if l.any (fun p => p.1 == k) then
    l.map (fun p => if p.1 == k then (k, v) else p)
  else
    l ++ [(k, v)]

/-- The apostrophe character, kept out of string literals. -/
def squote : Char := Char.ofNat 39

/-- Escape backslashes and the chosen quote character, as Python `repr`
does for str (control-character escapes are not modelled; no value this
development evaluates contains them). -/
def escapeChars (q : Char) : List Char → List Char
  | [] => []
  | c :: cs =>
    if c = '\\' then '\\' :: '\\' :: escapeChars q cs
    else if c = q then '\\' :: q :: escapeChars q cs
    else c :: escapeChars q cs

/-- Escape a whole string for quoting with `q`. -/
def escapeFor (q : Char) (s : String) : String :=
  ⟨escapeChars q s.data⟩

/-- Python `repr` of a str: single-quoted, switching to double quotes when
the string holds a single quote but no double quote. -/
def pyStrRepr (s : String) : String :=
  let hasS := s.data.contains squote
  let hasD := s.data.contains '"'
  if hasS && !hasD then "\"" ++ escapeFor '"' s ++ "\""
  else String.singleton squote ++ escapeFor squote s ++ String.singleton squote

mutual

/-- Python `repr` of a json-decoded value (used by `str` on containers and
inside f-strings for non-str values).  Integer-valued numbers print like
Python ints; the rendering of non-integer floats is approximated by the
rational `num/den` form, which no claim exercises. -/
def pyRepr : Json → String
  | .null => "None"
  | .bool true => "True"
  | .bool false => "False"
  | .num q => if q.den = 1 then toString q.num else toString q
  | .str s => pyStrRepr s
  | .arr xs => "[" ++ pyReprCommaList xs ++ "]"
  | .obj fs => "\x7b" ++ pyReprFieldList fs ++ "\x7d"

/-- Comma-separated `repr`s of list elements. -/
def pyReprCommaList : List Json → String
  | [] => ""
  | [x] => pyRepr x
  | x :: xs => pyRepr x ++ ", " ++ pyReprCommaList xs

/-- Comma-separated `key: value` `repr`s of dict entries. -/
def pyReprFieldList : List (String × Json) → String
  | [] => ""
  | [(k, v)] => pyStrRepr k ++ ": " ++ pyRepr v
  | (k, v) :: fs => pyStrRepr k ++ ": " ++ pyRepr v ++ ", " ++ pyReprFieldList fs

end

/-- Python `str` (f-string interpolation): a str stays as it is, anything
else renders by `repr`. -/
def pyStr : Json → String
  | .str s => s
  | j => pyRepr j

/-!
## The server state and handlers (`class MCPServer`)
-/

/-- The mutable state of `MCPServer.__init__`: the request-id counter and
the two correlation dictionaries. -/
structure MCPServer where
  request_id_counter : Int
  sampling_requests : List (Int × Json)
  pending_tool_requests : List (Int × Json)

/-- `MCPServer()` — counter seeded at 1000, both stores empty. -/
def MCPServer.initial : MCPServer :=
  { request_id_counter := 1000, sampling_requests := [], pending_tool_requests := [] }

/-- A handler's effect: the new state, the messages written to stdout (in
order), and the exception that escaped it, if any (caught by `run`). -/
abbrev HandlerResult := MCPServer × List Json × Option String

/-- The fixed `result` payload of `handle_initialize` (here `handle_initializeRequest`). -/
def initializeResult : Json :=
  .obj [("protocolVersion", .str "2025-06-18"),
        ("serverInfo", .obj [("name", .str "Python Sampler Server"),
                             ("version", .str "0.0.1")]),
        ("capabilities", .obj [("tools", .obj [("listChanged", .bool false)]),
                               ("prompts", .null),
                               ("resources", .null),
                               ("sampling", .null)])]

/-- `handle_initialize` (here `handle_initializeRequest`): reply with the capabilities result, keyed by the
inbound id (`request["id"]` raises KeyError when absent). -/
def MCPServer.handle_initializeRequest (s : MCPServer) (request : Json) : HandlerResult :=
  match request.pyItem "id" with
  | .error e => (s, [], some e)
  | .ok idv =>
    (s, [.obj [("jsonrpc", .str "2.0"), ("id", idv), ("result", initializeResult)]], none)

/-- `handle_initialized`: log only, no reply. -/
def MCPServer.handle_initialized (s : MCPServer) (_request : Json) : HandlerResult :=
  (s, [], none)

/-- `handle_empty_list`: reply with a `null` result. -/
def MCPServer.handle_empty_list (s : MCPServer) (request : Json) : HandlerResult :=
  match request.pyItem "id" with
  | .error e => (s, [], some e)
  | .ok idv =>
    (s, [.obj [("jsonrpc", .str "2.0"), ("id", idv), ("result", .null)]], none)

/-- The static descriptor of the one tool, from `handle_tools_list`. -/
def tool_definition : Json :=
  .obj [("name", .str "generate_poem"),
        ("description", .str "Analyzes the received text and requests sampling to generate poetic expressions based on it using LLM."),
        ("inputSchema", .obj [("type", .str "object"),
                              ("properties", .obj [("text_to_analyze", .obj [("type", .str "string"),
                                                                             ("description", .str "Text to analyze and express poetically.")])]),
                              ("required", .arr [.str "text_to_analyze"])])]

/-- `handle_tools_list`: reply with the single tool descriptor. -/
def MCPServer.handle_tools_list (s : MCPServer) (request : Json) : HandlerResult :=
  match request.pyItem "id" with
  | .error e => (s, [], some e)
  | .ok idv =>
    (s, [.obj [("jsonrpc", .str "2.0"), ("id", idv),
               ("result", .obj [("tools", .arr [tool_definition])])]], none)

/-- The prompt template of `trigger_sampling`. -/
def samplingPrompt (text_from_tool : Json) : String :=
  "Please create a short, poetic verse based on the theme \x27" ++ pyStr text_from_tool ++ "\x27."

/-- The outbound `sampling/createMessage` request of `trigger_sampling`. -/
def samplingRequestMsg (request_id : Int) (text_from_tool : Json) : Json :=
  .obj [("jsonrpc", .str "2.0"),
        ("id", .num (request_id : Rat)),
        ("method", .str "sampling/createMessage"),
        ("params", .obj [("messages", .arr [.obj [("role", .str "user"),
                                                  ("content", .obj [("type", .str "text"),
                                                                    ("text", .str (samplingPrompt text_from_tool))])]]),
                         ("systemPrompt", .str "You are a creative and imaginative poet."),
                         ("maxTokens", .num 100),
                         ("temperature", .num ((7 : Rat) / 10))])]

/-- `trigger_sampling`: take the current counter as the request id,
increment the counter, record the argument under that id, send the
sampling request, and return the id. -/
def MCPServer.trigger_sampling (s : MCPServer) (text_from_tool : Json) :
    MCPServer × Json × Int :=
  let request_id := s.request_id_counter
  ({ s with request_id_counter := request_id + 1,
            sampling_requests := dictInsert s.sampling_requests request_id text_from_tool },
   samplingRequestMsg request_id text_from_tool, request_id)

/-- `handle_tools_call`: for `generate_poem`, extract the argument, trigger
sampling and file the original request under the fresh sampling id; for any
other tool name, do nothing.  All subscript lookups happen before any state
is mutated, so a KeyError leaves the state untouched. -/
def MCPServer.handle_tools_call (s : MCPServer) (request : Json) : HandlerResult :=
  match (request.pyItem "params").bind (fun p => p.pyItem "name") with
  | .error e => (s, [], some e)
  | .ok tool_name =>
    if jsonEqStr tool_name "generate_poem" then
      match (request.pyItem "params").bind (fun p => (p.pyItem "arguments").bind
              (fun a => a.pyItem "text_to_analyze")) with
      | .error e => (s, [], some e)
      | .ok text =>
        let (s1, msg, sampling_request_id) := s.trigger_sampling text
        ({ s1 with pending_tool_requests :=
             dictInsert s1.pending_tool_requests sampling_request_id request },
         [msg], none)
    else (s, [], none)

/-- `_send_tool_error_response`: the -32603 error message keyed by the
original request's id (`original_request["id"]` may raise KeyError). -/
def sendToolError (original_request : Json) (error_message : String) : Except String Json :=
  match original_request.pyItem "id" with
  | .error e => .error e
  | .ok idv =>
    .ok (.obj [("jsonrpc", .str "2.0"), ("id", idv),
               ("error", .obj [("code", .num (-32603)), ("message", .str error_message)])])

/-- The successful tool response composed by `handle_sampling_response`. -/
def toolSuccessMsg (idv original_text poetic_text : Json) : Json :=
  .obj [("jsonrpc", .str "2.0"), ("id", idv),
        ("result", .obj [("content",
          .arr [.obj [("type", .str "text"),
                      ("text", .str ("Poem based on \x27" ++ pyStr original_text
                                     ++ "\x27:\n\n" ++ pyStr poetic_text))]])])]

/-- The condition `"result" in response and "content" in response["result"]`,
with Python short-circuiting and its possible TypeError. -/
def condResultContent (response : Json) : Except String Bool :=
  match response.pyContains "result" with
  | .error e => .error e
  | .ok false => .ok false
  | .ok true => (response.pyItem "result").bind (fun r => r.pyContains "content")

/-- The branch of `handle_sampling_response` reached once the ticket is
popped and the original tool request found: translate the sampling response
into a tool reply (success, format error, or upstream error).  The state is
already final; only output or an escaping exception remain. -/
def respondToTicket (s : MCPServer) (response original_text original_tool_request : Json) :
    HandlerResult :=
  match condResultContent response with
  | .error e => (s, [], some e)
  | .ok true =>
    match (response.pyItem "result").bind (fun r => r.pyItem "content") with
    | .error e => (s, [], some e)
    | .ok content =>
      match content.pyGet "type" with
      | .error e => (s, [], some e)
      | .ok ty =>
        if jsonEqStr ty "text" then
          match content.pyGet "text" with
          | .error e => (s, [], some e)
          | .ok poetic_text =>
            match original_tool_request.pyItem "id" with
            | .error e => (s, [], some e)
            | .ok idv => (s, [toolSuccessMsg idv original_text poetic_text], none)
        else
          match sendToolError original_tool_request "Unexpected response format from sampling" with
          | .error e => (s, [], some e)
          | .ok m => (s, [m], none)
  | .ok false =>
    match response.pyContains "error" with
    | .error e => (s, [], some e)
    | .ok true =>
      match response.pyItem "error" with
      | .error e => (s, [], some e)
      | .ok errv =>
        match sendToolError original_tool_request ("Sampling failed: " ++ pyStr errv) with
        | .error e => (s, [], some e)
        | .ok m => (s, [m], none)
    | .ok false =>
      match sendToolError original_tool_request "Unexpected sampling response format" with
      | .error e => (s, [], some e)
      | .ok m => (s, [m], none)

/-- `handle_sampling_response`: look the response id up in
`sampling_requests`; when found, atomically pop both correlation entries,
then translate the response for the original caller.  A missing ticket or a
missing original request only logs. -/
def MCPServer.handle_sampling_response (s : MCPServer) (response : Json) : HandlerResult :=
  match response.pyGet "id" with
  | .error e => (s, [], some e)
  | .ok request_id =>
    match pyHashable request_id with
    | .error e => (s, [], some e)
    | .ok _ =>
      if dictHasKey s.sampling_requests request_id then
        let (origText?, sr) := dictPop s.sampling_requests request_id
        let original_text := origText?.getD .null
        let (otr?, pr) := dictPop s.pending_tool_requests request_id
        let s1 := { s with sampling_requests := sr, pending_tool_requests := pr }
        if pyTruthyOpt otr? then
          respondToTicket s1 response original_text (otr?.getD .null)
        else (s1, [], none)
      else (s, [], none)

/-!
## Dispatcher and transport loop (`run`)
-/

/-- The handlers table of `get_handler`. -/
inductive HandlerKind where
  | initMsg | initDone | toolsList | toolsCall | emptyList

/-- `get_handler(method)` — `handlers.get(method)`: exact string match; a
hashable non-string finds nothing; an unhashable method raises TypeError at
the `.get` call. -/
def get_handler : Json → Except String (Option HandlerKind)
  | .str "initialize" => .ok (some .initMsg)
  | .str "notifications/initialized" => .ok (some .initDone)
  | .str "tools/list" => .ok (some .toolsList)
  | .str "tools/call" => .ok (some .toolsCall)
  | .str "prompts/list" => .ok (some .emptyList)
  | .str "resources/list" => .ok (some .emptyList)
  | .str "resources/templates/list" => .ok (some .emptyList)
  | .str _ => .ok none
  | .null => .ok none
  | .bool _ => .ok none
  | .num _ => .ok none
  | .arr _ => .error "TypeError: unhashable type: list"
  | .obj _ => .error "TypeError: unhashable type: dict"

/-- Invoke the handler found by `get_handler`. -/
def MCPServer.runHandler (s : MCPServer) : HandlerKind → Json → HandlerResult
  | .initMsg, request => s.handle_initializeRequest request
  | .initDone, request => s.handle_initialized request
  | .toolsList, request => s.handle_tools_list request
  | .toolsCall, request => s.handle_tools_call request
  | .emptyList, request => s.handle_empty_list request

/-- One iteration of the `run` loop body on a decoded message: read
`method` and `id`, dispatch by method name when `method` is truthy,
otherwise correlate by id against `sampling_requests`; unknown methods and
orphan responses only log. -/
def MCPServer.dispatch (s : MCPServer) (request : Json) : HandlerResult :=
  match request.pyGet "method" with
  | .error e => (s, [], some e)
  | .ok method =>
    match request.pyGet "id" with
    | .error e => (s, [], some e)
    | .ok request_id =>
      if method.truthy then
        match get_handler method with
        | .error e => (s, [], some e)
        | .ok (some h) => s.runHandler h request
        | .ok none => (s, [], none)
      else
        match pyHashable request_id with
        | .error e => (s, [], some e)
        | .ok _ =>
          if dictHasKey s.sampling_requests request_id then
            s.handle_sampling_response request
          else (s, [], none)

/-- One observable event at the transport loop: a bounded-wait timeout, an
empty read (end-of-stream), an undecodable line, a decoded message, or an
external interrupt (KeyboardInterrupt). -/
inductive Event where
  | timeout
  | eofLine
  | badLine
  | interrupt
  | msg (j : Json)

/-- Whether the loop continues or breaks after the iteration. -/
inductive StepSignal where
  | cont
  | brk
deriving DecidableEq

/-- One iteration of `run`: a timeout spins; an empty read or an
undecodable line makes `_read_message` return `None` and the loop
`continue`s; a KeyboardInterrupt breaks; a decoded message is dispatched,
with any escaping exception caught and logged so the loop continues. -/
def MCPServer.loopStep (s : MCPServer) : Event → MCPServer × List Json × StepSignal
  | .timeout => (s, [], .cont)
  | .eofLine => (s, [], .cont)
  | .badLine => (s, [], .cont)
  | .interrupt => (s, [], .brk)
  | .msg j =>
    let (s1, out, _exn) := s.dispatch j
    (s1, out, .cont)

/-- `run` over a finite trace of events: fold `loopStep`, stopping at the
first `brk`, collecting every message written to stdout in order. -/
def MCPServer.runEvents (s : MCPServer) : List Event → MCPServer × List Json
  | [] => (s, [])
  | e :: es =>
    let (s1, out, sig) := s.loopStep e
    match sig with
    | .brk => (s1, out)
    | .cont =>
      let (s2, outs) := s1.runEvents es
      (s2, out ++ outs)

/-!
## Message shapes used in the statements
-/

/-- A well-formed `tools/call` request with id `c`, tool name `n` and
argument object `args`. -/
def toolsCallMsg (c : Json) (n : String) (args : Json) : Json :=
  .obj [("jsonrpc", .str "2.0"), ("id", c), ("method", .str "tools/call"),
        ("params", .obj [("name", .str n), ("arguments", args)])]

/-- The `tools/call` request invoking `generate_poem` on text `a`. -/
def generatePoemCall (c : Json) (a : String) : Json :=
  toolsCallMsg c "generate_poem" (.obj [("text_to_analyze", .str a)])

/-- A successful sampling response: matching integer id, no `method`, and a
text-typed content block carrying `t`. -/
def samplingSuccess (sid : Int) (t : String) : Json :=
  .obj [("id", .num (sid : Rat)),
        ("result", .obj [("content", .obj [("type", .str "text"), ("text", .str t)])])]

/-- An error-shaped sampling response: matching integer id, no `method`, an
`error` field and no `result`. -/
def samplingErrorResponse (sid : Int) (errv : Json) : Json :=
  .obj [("id", .num (sid : Rat)), ("error", errv)]

/-- The -32603 tool-error reply shape. -/
def toolErrorMsg (idv : Json) (m : String) : Json :=
  .obj [("jsonrpc", .str "2.0"), ("id", idv),
        ("error", .obj [("code", .num (-32603)), ("message", .str m)])]

/-!
## Lemmas about the dictionary model
-/

lemma pyEqKey_num_int (sid k : Int) :
    pyEqKey (Json.num (sid : Rat)) k = decide (sid = k) := by
  show decide ((sid : Rat) = (k : Rat)) = decide (sid = k)
  exact decide_eq_decide.mpr Int.cast_inj

lemma pyEqKey_uniq (idj : Json) (k1 k2 : Int)
    (h1 : pyEqKey idj k1 = true) (h2 : pyEqKey idj k2 = true) : k1 = k2 := by
  cases idj with
  | num q =>
    rw [show pyEqKey (.num q) k1 = decide (q = (k1 : Rat)) from rfl, decide_eq_true_eq] at h1
    rw [show pyEqKey (.num q) k2 = decide (q = (k2 : Rat)) from rfl, decide_eq_true_eq] at h2
    exact_mod_cast h1.symm.trans h2
  | bool b =>
    rw [show pyEqKey (.bool b) k1 = decide ((if b then (1 : Int) else 0) = k1) from rfl,
        decide_eq_true_eq] at h1
    rw [show pyEqKey (.bool b) k2 = decide ((if b then (1 : Int) else 0) = k2) from rfl,
        decide_eq_true_eq] at h2
    exact h1.symm.trans h2
  | null => exact absurd h1 (by simp [pyEqKey])
  | str s => exact absurd h1 (by simp [pyEqKey])
  | arr xs => exact absurd h1 (by simp [pyEqKey])
  | obj fs => exact absurd h1 (by simp [pyEqKey])

lemma dictHasKey_of_pop_some {l : List (Int × Json)} {idj : Json} {v : Json}
    {l2 : List (Int × Json)} (h : dictPop l idj = (some v, l2)) :
    dictHasKey l idj = true := by
  unfold dictPop at h
  cases hf : l.find? (fun p => pyEqKey idj p.1) with
  | none => rw [hf] at h; simp at h
  | some p =>
    have hp := List.find?_some hf
    have hm : p ∈ l := List.mem_of_find?_eq_some hf
    exact List.any_eq_true.mpr ⟨p, hm, hp⟩

lemma dictPop_snd (l : List (Int × Json)) (idj : Json) :
    (dictPop l idj).2 = l.eraseP (fun q => pyEqKey idj q.1) := by
  unfold dictPop
  cases hf : l.find? (fun p => pyEqKey idj p.1) with
  | none =>
    simp only
    exact (List.eraseP_of_forall_not (by simpa using List.find?_eq_none.mp hf)).symm
  | some p => rfl

lemma eraseP_key_no_match (idj : Json) (l : List (Int × Json))
    (hnd : (l.map Prod.fst).Nodup) :
    (l.eraseP (fun q => pyEqKey idj q.1)).any (fun q => pyEqKey idj q.1) = false := by
  induction l with
  | nil => rfl
  | cons hd tl ih =>
    rw [List.map_cons, List.nodup_cons] at hnd
    obtain ⟨hhd, hnd'⟩ := hnd
    rw [List.eraseP_cons]
    by_cases hh : pyEqKey idj hd.1 = true
    · simp only [hh, cond_true]
      rw [List.any_eq_false]
      intro p hp hpred
      exact hhd (List.mem_map.mpr ⟨p, hp, pyEqKey_uniq idj p.1 hd.1 hpred hh⟩)
    · rw [Bool.not_eq_true] at hh
      simp only [hh, cond_false, List.any_cons, hh, Bool.false_or]
      exact ih hnd'

lemma dictHasKey_pop_snd (l : List (Int × Json)) (idj : Json)
    (hnd : (l.map Prod.fst).Nodup) :
    dictHasKey (dictPop l idj).2 idj = false := by
  rw [dictPop_snd]
  exact eraseP_key_no_match idj l hnd

lemma map_fst_dictInsert (l : List (Int × Json)) (k : Int) (v : Json) :
    (dictInsert l k v).map Prod.fst =
      if (l.map Prod.fst).any (fun x => x == k) then l.map Prod.fst
      else l.map Prod.fst ++ [k] := by
  have hcond : (List.map Prod.fst l).any (fun x => x == k) = l.any (fun p => p.1 == k) := by
    induction l with
    | nil => rfl
    | cons hd tl ih => simp [ih]
  rw [hcond]
  unfold dictInsert
  by_cases hc : l.any (fun p => p.1 == k) = true
  · rw [if_pos hc, if_pos hc, List.map_map]
    refine List.map_congr_left ?_
    intro p _
    by_cases hp : (p.1 == k) = true
    · simp only [Function.comp_apply, if_pos hp]
      exact (eq_of_beq hp).symm
    · simp only [Function.comp_apply, if_neg hp]
  · rw [if_neg hc, if_neg hc, List.map_append]
    rfl

lemma mem_dictInsert {p : Int × Json} {l : List (Int × Json)} {k : Int} {v : Json}
    (h : p ∈ dictInsert l k v) : p = (k, v) ∨ p ∈ l := by
  unfold dictInsert at h
  by_cases hc : l.any (fun q => q.1 == k) = true
  · rw [if_pos hc] at h
    obtain ⟨q, hq, hqe⟩ := List.mem_map.mp h
    by_cases hqk : q.1 == k
    · left; rw [if_pos hqk] at hqe; exact hqe.symm
    · right; rw [if_neg hqk] at hqe; exact hqe ▸ hq
  · rw [if_neg hc] at h
    rcases List.mem_append.mp h with hl | hr
    · right; exact hl
    · left; simpa using hr

lemma respondToTicket_fst (s : MCPServer) (response original_text otr : Json) :
    (respondToTicket s response original_text otr).1 = s := by
  unfold respondToTicket
  repeat' split
  all_goals rfl

/-!
## Claim theorems
-/

/-- C1: for a pending ticket with sampling id `sid` that stores argument
text `a` and the original `tools/call` request (with id `c`), dispatching
an inbound message with id `sid`, no method, and a text-typed result
content block `t` produces exactly one message: the tool response keyed by
`c` (not `sid`) embedding both `a` and `t` verbatim, and destroys the
ticket.  The state `st` is arbitrary, so the routing is independent of any
other pending tickets and of resolution order. -/
theorem sampling_success_routes_to_original_caller
    (st : MCPServer) (sid : Int) (a t : String) (origReq c : Json)
    (sr2 pr2 : List (Int × Json))
    (h1 : dictPop st.sampling_requests (.num (sid : Rat)) = (some (.str a), sr2))
    (h2 : dictPop st.pending_tool_requests (.num (sid : Rat)) = (some origReq, pr2))
    (h3 : origReq.pyItem "id" = .ok c)
    (h4 : origReq.truthy = true) :
    st.dispatch (samplingSuccess sid t) =
      ({ st with sampling_requests := sr2, pending_tool_requests := pr2 },
       [toolSuccessMsg c (.str a) (.str t)], none) := by
  have hmem := dictHasKey_of_pop_some h1
  simp only [Json.pyItem] at h3
  simp [MCPServer.dispatch, MCPServer.handle_sampling_response, samplingSuccess,
        Json.pyGet, Json.pyItem, Json.pyContains, pyHashable,
        hmem, h1, h2, h3, h4, pyTruthyOpt, respondToTicket, condResultContent,
        jsonEqStr, toolSuccessMsg, List.lookup, List.any, Except.bind,
        show Json.truthy .null = false from rfl]

/-!
## Observables of the output stream
-/

/-- Is an outgoing message a `sampling/createMessage` request? -/
def isSamplingReq (j : Json) : Bool :=
  match j.pyGet "method" with
  | .ok m => jsonEqStr m "sampling/createMessage"
  | .error _ => false

/-- The integer id of an outgoing message, when it has one. -/
def samplingIdOf (j : Json) : Option Int :=
  match j.pyGet "id" with
  | .ok (.num q) => if q.den = 1 then some q.num else none
  | _ => none

/-- The ids of the `sampling/createMessage` requests in an output batch. -/
def samplingIdsOf (out : List Json) : List Int :=
  out.filterMap (fun j => if isSamplingReq j then samplingIdOf j else none)


lemma samplingIdsOf_single_not {m : Json} (h : isSamplingReq m = false) :
    samplingIdsOf [m] = [] := by
  simp [samplingIdsOf, List.filterMap_cons, h]

lemma sendToolError_not_sampling {r : Json} {msg : String} {m : Json}
    (h : sendToolError r msg = .ok m) : isSamplingReq m = false := by
  unfold sendToolError at h
  cases hpi : r.pyItem "id" with
  | error e => rw [hpi] at h; cases h
  | ok idv => rw [hpi] at h; cases h; rfl

lemma hsr_out_no_sampling (s : MCPServer) (r : Json) :
    samplingIdsOf (s.handle_sampling_response r).2.1 = [] := by
  unfold MCPServer.handle_sampling_response respondToTicket
  repeat' split
  any_goals rfl
  all_goals (rename_i hse; exact samplingIdsOf_single_not (sendToolError_not_sampling hse))

lemma hsr_fst_of_found (s : MCPServer) (r rid : Json)
    (hpg : r.pyGet "id" = .ok rid) (hh : pyHashable rid = .ok ())
    (hm : dictHasKey s.sampling_requests rid = true) :
    (s.handle_sampling_response r).1 =
      { s with sampling_requests := (dictPop s.sampling_requests rid).2,
               pending_tool_requests := (dictPop s.pending_tool_requests rid).2 } := by
  unfold MCPServer.handle_sampling_response
  simp only [hpg, hh, hm, if_true]
  split
  · exact respondToTicket_fst _ _ _ _
  · rfl

/-- The id field an inbound message presents for correlation (`None` when
absent or when the message is not an object). -/
def idOfMsg (j : Json) : Json :=
  match j.pyGet "id" with
  | .ok v => v
  | .error _ => .null

/-- Every single dispatch either (a) emits exactly one fresh
`sampling/createMessage` request keyed by the current counter and files the
ticket in both stores, or (b) leaves the counter unchanged, emits no
sampling request, and leaves the state either untouched or with the
message's own id popped from both stores. -/
lemma dispatch_cases (s : MCPServer) (j : Json) :
    (∃ text, s.dispatch j =
       ({ s with request_id_counter := s.request_id_counter + 1,
                 sampling_requests :=
                   dictInsert s.sampling_requests s.request_id_counter text,
                 pending_tool_requests :=
                   dictInsert s.pending_tool_requests s.request_id_counter j },
        [samplingRequestMsg s.request_id_counter text], none)) ∨
    ((s.dispatch j).1.request_id_counter = s.request_id_counter ∧
     samplingIdsOf (s.dispatch j).2.1 = [] ∧
     ((s.dispatch j).1 = s ∨
      (s.dispatch j).1 =
        { s with sampling_requests := (dictPop s.sampling_requests (idOfMsg j)).2,
                 pending_tool_requests :=
                   (dictPop s.pending_tool_requests (idOfMsg j)).2 })) := by
  cases hm : j.pyGet "method" with
  | error e =>
    have hd : s.dispatch j = (s, [], some e) := by simp [MCPServer.dispatch, hm]
    right; rw [hd]; exact ⟨rfl, rfl, Or.inl rfl⟩
  | ok mth =>
    cases hid : j.pyGet "id" with
    | error e =>
      have hd : s.dispatch j = (s, [], some e) := by simp [MCPServer.dispatch, hm, hid]
      right; rw [hd]; exact ⟨rfl, rfl, Or.inl rfl⟩
    | ok rid0 =>
      by_cases ht : mth.truthy = true
      · cases hgh : get_handler mth with
        | error e =>
          have hd : s.dispatch j = (s, [], some e) := by
            simp [MCPServer.dispatch, hm, hid, ht, hgh]
          right; rw [hd]; exact ⟨rfl, rfl, Or.inl rfl⟩
        | ok oh =>
          cases oh with
          | none =>
            have hd : s.dispatch j = (s, [], none) := by
              simp [MCPServer.dispatch, hm, hid, ht, hgh]
            right; rw [hd]; exact ⟨rfl, rfl, Or.inl rfl⟩
          | some h =>
            have hd : s.dispatch j = s.runHandler h j := by
              simp [MCPServer.dispatch, hm, hid, ht, hgh]
            cases h with
            | initMsg =>
              cases hpi : j.pyItem "id" with
              | error e =>
                have hr : s.runHandler .initMsg j = (s, [], some e) := by
                  simp [MCPServer.runHandler, MCPServer.handle_initializeRequest, hpi]
                right; rw [hd, hr]; exact ⟨rfl, rfl, Or.inl rfl⟩
              | ok idv =>
                have hr : s.runHandler .initMsg j =
                    (s, [.obj [("jsonrpc", .str "2.0"), ("id", idv),
                               ("result", initializeResult)]], none) := by
                  simp [MCPServer.runHandler, MCPServer.handle_initializeRequest, hpi]
                right; rw [hd, hr]; exact ⟨rfl, rfl, Or.inl rfl⟩
            | initDone =>
              have hr : s.runHandler .initDone j = (s, [], none) := rfl
              right; rw [hd, hr]; exact ⟨rfl, rfl, Or.inl rfl⟩
            | toolsList =>
              cases hpi : j.pyItem "id" with
              | error e =>
                have hr : s.runHandler .toolsList j = (s, [], some e) := by
                  simp [MCPServer.runHandler, MCPServer.handle_tools_list, hpi]
                right; rw [hd, hr]; exact ⟨rfl, rfl, Or.inl rfl⟩
              | ok idv =>
                have hr : s.runHandler .toolsList j =
                    (s, [.obj [("jsonrpc", .str "2.0"), ("id", idv),
                               ("result", .obj [("tools", .arr [tool_definition])])]], none) := by
                  simp [MCPServer.runHandler, MCPServer.handle_tools_list, hpi]
                right; rw [hd, hr]; exact ⟨rfl, rfl, Or.inl rfl⟩
            | emptyList =>
              cases hpi : j.pyItem "id" with
              | error e =>
                have hr : s.runHandler .emptyList j = (s, [], some e) := by
                  simp [MCPServer.runHandler, MCPServer.handle_empty_list, hpi]
                right; rw [hd, hr]; exact ⟨rfl, rfl, Or.inl rfl⟩
              | ok idv =>
                have hr : s.runHandler .emptyList j =
                    (s, [.obj [("jsonrpc", .str "2.0"), ("id", idv), ("result", .null)]],
                     none) := by
                  simp [MCPServer.runHandler, MCPServer.handle_empty_list, hpi]
                right; rw [hd, hr]; exact ⟨rfl, rfl, Or.inl rfl⟩
            | toolsCall =>
              cases hpn : (j.pyItem "params").bind (fun p => p.pyItem "name") with
              | error e =>
                have hr : s.runHandler .toolsCall j = (s, [], some e) := by
                  simp [MCPServer.runHandler, MCPServer.handle_tools_call, hpn]
                right; rw [hd, hr]; exact ⟨rfl, rfl, Or.inl rfl⟩
              | ok tool_name =>
                by_cases htn : jsonEqStr tool_name "generate_poem" = true
                · cases hpa : (j.pyItem "params").bind (fun p => (p.pyItem "arguments").bind
                      (fun a => a.pyItem "text_to_analyze")) with
                  | error e =>
                    have hr : s.runHandler .toolsCall j = (s, [], some e) := by
                      simp [MCPServer.runHandler, MCPServer.handle_tools_call, hpn, htn, hpa]
                    right; rw [hd, hr]; exact ⟨rfl, rfl, Or.inl rfl⟩
                  | ok text =>
                    have hr : s.runHandler .toolsCall j =
                        ({ s with request_id_counter := s.request_id_counter + 1,
                                  sampling_requests :=
                                    dictInsert s.sampling_requests s.request_id_counter text,
                                  pending_tool_requests :=
                                    dictInsert s.pending_tool_requests s.request_id_counter j },
                         [samplingRequestMsg s.request_id_counter text], none) := by
                      simp [MCPServer.runHandler, MCPServer.handle_tools_call, hpn, htn, hpa,
                            MCPServer.trigger_sampling]
                    left; exact ⟨text, hd.trans hr⟩
                · have hr : s.runHandler .toolsCall j = (s, [], none) := by
                    simp [MCPServer.runHandler, MCPServer.handle_tools_call, hpn, htn]
                  right; rw [hd, hr]; exact ⟨rfl, rfl, Or.inl rfl⟩
      · cases hh : pyHashable rid0 with
        | error e =>
          have hd : s.dispatch j = (s, [], some e) := by
            simp [MCPServer.dispatch, hm, hid, ht, hh]
          right; rw [hd]; exact ⟨rfl, rfl, Or.inl rfl⟩
        | ok u =>
          cases u
          by_cases hmem : dictHasKey s.sampling_requests rid0 = true
          · have hd : s.dispatch j = s.handle_sampling_response j := by
              simp [MCPServer.dispatch, hm, hid, ht, hh, hmem]
            have hfst := hsr_fst_of_found s j rid0 hid hh hmem
            have hio : idOfMsg j = rid0 := by simp [idOfMsg, hid]
            right
            refine ⟨?_, ?_, Or.inr ?_⟩
            · rw [hd, hfst]
            · rw [hd]; exact hsr_out_no_sampling s j
            · rw [hd, hfst, hio]
          · have hd : s.dispatch j = (s, [], none) := by
              simp [MCPServer.dispatch, hm, hid, ht, hh, hmem]
            right; rw [hd]; exact ⟨rfl, rfl, Or.inl rfl⟩

/-- C2: dispatching a well-formed `tools/call` for `generate_poem` with
argument text `a` emits exactly one outbound message — the
`sampling/createMessage` request whose params embed `a` in the fixed prompt
template with the fixed persona string, `maxTokens` 100 and temperature
7/10 — increments the counter once, files the ticket under the old counter
value in both stores, and sends no reply keyed by the call id `c` at this
point (the single output is the sampling request itself). -/
theorem tools_call_defers_and_emits_sampling (st : MCPServer) (c : Json) (a : String) :
    st.dispatch (generatePoemCall c a) =
      ({ st with
           request_id_counter := st.request_id_counter + 1,
           sampling_requests :=
             dictInsert st.sampling_requests st.request_id_counter (.str a),
           pending_tool_requests :=
             dictInsert st.pending_tool_requests st.request_id_counter
               (generatePoemCall c a) },
       [samplingRequestMsg st.request_id_counter (.str a)], none) := rfl

/-- C3: for a pending ticket with sampling id `sid` and original call id
`c`, dispatching a response with id `sid` that carries an `error` field and
no `result` produces exactly one tool-error message keyed by `c` with code
-32603 whose message embeds the upstream error detail, and destroys the
ticket; no success result is sent. -/
theorem sampling_error_routes_tool_error
    (st : MCPServer) (sid : Int) (origText origReq c errv : Json)
    (sr2 pr2 : List (Int × Json))
    (h1 : dictPop st.sampling_requests (.num (sid : Rat)) = (some origText, sr2))
    (h2 : dictPop st.pending_tool_requests (.num (sid : Rat)) = (some origReq, pr2))
    (h3 : origReq.pyItem "id" = .ok c)
    (h4 : origReq.truthy = true) :
    st.dispatch (samplingErrorResponse sid errv) =
      ({ st with sampling_requests := sr2, pending_tool_requests := pr2 },
       [toolErrorMsg c ("Sampling failed: " ++ pyStr errv)], none) := by
  have hmem := dictHasKey_of_pop_some h1
  simp only [Json.pyItem] at h3
  simp [MCPServer.dispatch, MCPServer.handle_sampling_response, samplingErrorResponse,
        Json.pyGet, Json.pyItem, Json.pyContains, pyHashable,
        hmem, h1, h2, h3, h4, pyTruthyOpt, respondToTicket, condResultContent,
        jsonEqStr, toolErrorMsg, sendToolError, List.lookup, List.any, Except.bind,
        show Json.truthy .null = false from rfl]

/-- C10: a `tools/call` naming any tool other than `generate_poem` is
dropped silently: no message is written and the state (both correlation
stores and the counter) is unchanged. -/
theorem unknown_tool_name_is_silent (st : MCPServer) (c : Json) (m : String) (args : Json)
    (h : m ≠ "generate_poem") :
    st.dispatch (toolsCallMsg c m args) = (st, [], none) := by
  simp [MCPServer.dispatch, MCPServer.handle_tools_call, toolsCallMsg,
        Json.pyGet, Json.pyItem, jsonEqStr, List.lookup, Except.bind, h,
        get_handler, MCPServer.runHandler,
        show Json.truthy (.str "tools/call") = true from rfl]

/-- C5 (the code violates this claim): on end-of-stream `_read_message`
returns `None` and the loop body hits `continue`, so the loop keeps
iterating — it does not break.  Formally: the end-of-stream iteration
yields the `cont` signal with no output, and the trace semantics keeps
processing the events after it. -/
theorem eof_does_not_terminate_loop (s : MCPServer) (es : List Event) :
    s.loopStep Event.eofLine = (s, [], StepSignal.cont) ∧
    s.runEvents (Event.eofLine :: es) = s.runEvents es := by
  refine ⟨rfl, ?_⟩
  simp [MCPServer.runEvents, MCPServer.loopStep]

/-- C6: an undecodable line leaves the state untouched, produces no output
and the loop continues with the remaining events exactly as if the line
had not arrived; dispatching any decoded message always yields the `cont`
signal (every handler exception is caught at loop level), and the loop
then processes the remaining events from the post-dispatch state; and when
a message `j` makes its handler raise (`he`), every in-flight ticket whose
id is not the one `j` carries survives untouched. -/
theorem malformed_lines_never_crash_loop (s : MCPServer) (j : Json) (es : List Event)
    (exm : String) (p : Int × Json)
    (he : (s.dispatch j).2.2 = some exm)
    (hp : p ∈ s.sampling_requests)
    (hne : pyEqKey (idOfMsg j) p.1 = false) :
    s.loopStep Event.badLine = (s, [], StepSignal.cont) ∧
    (s.loopStep (Event.msg j)).2.2 = StepSignal.cont ∧
    s.runEvents (Event.badLine :: es) = s.runEvents es ∧
    s.runEvents (Event.msg j :: es) =
      (((s.dispatch j).1.runEvents es).1,
       (s.dispatch j).2.1 ++ ((s.dispatch j).1.runEvents es).2) ∧
    p ∈ (s.dispatch j).1.sampling_requests := by
  refine ⟨rfl, rfl, ?_, ?_, ?_⟩
  · simp [MCPServer.runEvents, MCPServer.loopStep]
  · simp [MCPServer.runEvents, MCPServer.loopStep]
  · rcases dispatch_cases s j with ⟨text, hd⟩ | ⟨_, _, hst | hst⟩
    · rw [hd] at he; simp at he
    · rw [hst]; exact hp
    · rw [hst]
      show p ∈ (dictPop s.sampling_requests (idOfMsg j)).2
      rw [dictPop_snd]
      exact (List.mem_eraseP_of_neg (by simp [hne])).mpr hp

/-- A sampling response whose successful result wraps an arbitrary
`content` value. -/
def samplingContentResponse (sid : Int) (content : Json) : Json :=
  .obj [("id", .num (sid : Rat)), ("result", .obj [("content", content)])]

/-- C4 counterexample: with a ticket pending for id 1000, a response whose
result `content` is present but is a string (one of the "otherwise
structurally unexpected" shapes the claim covers) makes `content.get`
raise; the exception escapes to the loop, the ticket is consumed, and NO
tool-level error reply is written — refuting "causes exactly one
tool-level error reply ... for every such unexpected shape". -/
theorem unexpected_content_claim_counterexample :
    (MCPServer.initial.dispatch (generatePoemCall (.num 7) "muse")).1.dispatch
        (samplingContentResponse 1000 (.str "oops")) =
      ({ request_id_counter := 1001, sampling_requests := [],
         pending_tool_requests := [] },
       [], some "AttributeError: object has no attribute get") := rfl

/-- C4 (amended): for a pending ticket, a response whose result carries a
`content` value that is an object whose `type` is not the string "text"
yields exactly one -32603 reply ("Unexpected response format from
sampling") keyed by the original call id `c`; (a `content` value that is
not an object instead raises inside the handler, which the loop catches:
the ticket is consumed and no reply is written, per the counterexample). -/
theorem non_text_object_content_yields_format_error
    (st : MCPServer) (sid : Int) (origText origReq c : Json)
    (cfields : List (String × Json))
    (sr2 pr2 : List (Int × Json))
    (h1 : dictPop st.sampling_requests (.num (sid : Rat)) = (some origText, sr2))
    (h2 : dictPop st.pending_tool_requests (.num (sid : Rat)) = (some origReq, pr2))
    (h3 : origReq.pyItem "id" = .ok c)
    (h4 : origReq.truthy = true)
    (hty : jsonEqStr ((cfields.lookup "type").getD .null) "text" = false) :
    st.dispatch (samplingContentResponse sid (.obj cfields)) =
      ({ st with sampling_requests := sr2, pending_tool_requests := pr2 },
       [toolErrorMsg c "Unexpected response format from sampling"], none) := by
  have hmem := dictHasKey_of_pop_some h1
  simp only [Json.pyItem] at h3
  simp only [jsonEqStr] at hty
  simp [MCPServer.dispatch, MCPServer.handle_sampling_response, samplingContentResponse,
        Json.pyGet, Json.pyItem, Json.pyContains, pyHashable,
        hmem, h1, h2, h3, h4, hty, pyTruthyOpt, respondToTicket, condResultContent,
        jsonEqStr, toolErrorMsg, sendToolError, List.lookup, List.any, Except.bind,
        show Json.truthy .null = false from rfl]

/-- C7: with unique ticket ids, a first inbound no-method message carrying
a pending sampling id `sid` destroys the ticket (the id is gone from the
argument store afterwards), and a second no-method message with the same
id then produces no output and no state change — it is the orphan case. -/
theorem ticket_destroyed_exactly_once
    (st : MCPServer) (sid : Int) (rest1 rest2 : List (String × Json))
    (hnd : (st.sampling_requests.map Prod.fst).Nodup)
    (hm1 : rest1.lookup "method" = none)
    (hm2 : rest2.lookup "method" = none)
    (hmem : dictHasKey st.sampling_requests (.num (sid : Rat)) = true) :
    dictHasKey
        ((st.dispatch (Json.obj (("id", Json.num (sid : Rat)) :: rest1))).1).sampling_requests
        (.num (sid : Rat)) = false ∧
    ((st.dispatch (Json.obj (("id", Json.num (sid : Rat)) :: rest1))).1).dispatch
        (Json.obj (("id", Json.num (sid : Rat)) :: rest2)) =
      ((st.dispatch (Json.obj (("id", Json.num (sid : Rat)) :: rest1))).1, [], none) := by
  have hmth1 : (Json.obj (("id", Json.num (sid : Rat)) :: rest1)).pyGet "method" =
      .ok .null := by
    simp [Json.pyGet, List.lookup, hm1]
  have hid1 : (Json.obj (("id", Json.num (sid : Rat)) :: rest1)).pyGet "id" =
      .ok (.num (sid : Rat)) := by
    simp [Json.pyGet, List.lookup]
  have hd1 : st.dispatch (Json.obj (("id", Json.num (sid : Rat)) :: rest1)) =
      st.handle_sampling_response (Json.obj (("id", Json.num (sid : Rat)) :: rest1)) := by
    simp [MCPServer.dispatch, hmth1, hid1, pyHashable, hmem,
          show Json.truthy .null = false from rfl]
  have hfst := hsr_fst_of_found st (Json.obj (("id", Json.num (sid : Rat)) :: rest1))
      (.num (sid : Rat)) hid1 rfl hmem
  have hkey : dictHasKey
      ((st.dispatch (Json.obj (("id", Json.num (sid : Rat)) :: rest1))).1).sampling_requests
      (.num (sid : Rat)) = false := by
    rw [hd1, hfst]
    exact dictHasKey_pop_snd _ _ hnd
  refine ⟨hkey, ?_⟩
  have hmth2 : (Json.obj (("id", Json.num (sid : Rat)) :: rest2)).pyGet "method" =
      .ok .null := by
    simp [Json.pyGet, List.lookup, hm2]
  have hid2 : (Json.obj (("id", Json.num (sid : Rat)) :: rest2)).pyGet "id" =
      .ok (.num (sid : Rat)) := by
    simp [Json.pyGet, List.lookup]
  generalize hg : (st.dispatch (Json.obj (("id", Json.num (sid : Rat)) :: rest1))).1 = st1
  rw [hg] at hkey
  simp [MCPServer.dispatch, hmth2, hid2, pyHashable, hkey,
        show Json.truthy .null = false from rfl]

/-!
## Store invariants
-/

/-- The two correlation stores hold the same ids, in the same order. -/
def keysEq (s : MCPServer) : Prop :=
  s.sampling_requests.map Prod.fst = s.pending_tool_requests.map Prod.fst

lemma map_fst_eraseP (rid : Json) (l : List (Int × Json)) :
    (l.eraseP (fun q => pyEqKey rid q.1)).map Prod.fst
      = (l.map Prod.fst).eraseP (fun k => pyEqKey rid k) := by
  induction l with
  | nil => rfl
  | cons hd tl ih =>
    rw [List.eraseP_cons, List.map_cons, List.eraseP_cons]
    by_cases hh : pyEqKey rid hd.1 = true
    · simp [hh]
    · rw [Bool.not_eq_true] at hh
      simp [hh, ih]

lemma dispatch_keysEq (s : MCPServer) (j : Json) (h : keysEq s) :
    keysEq (s.dispatch j).1 := by
  rcases dispatch_cases s j with ⟨text, hd⟩ | ⟨_, _, hst | hst⟩
  · rw [hd]
    show (dictInsert s.sampling_requests s.request_id_counter text).map Prod.fst
        = (dictInsert s.pending_tool_requests s.request_id_counter j).map Prod.fst
    rw [map_fst_dictInsert, map_fst_dictInsert]
    rw [keysEq] at h
    rw [h]
  · rw [hst]; exact h
  · rw [hst]
    show (dictPop s.sampling_requests (idOfMsg j)).2.map Prod.fst
        = (dictPop s.pending_tool_requests (idOfMsg j)).2.map Prod.fst
    rw [dictPop_snd, dictPop_snd, map_fst_eraseP, map_fst_eraseP]
    rw [keysEq] at h
    rw [h]

lemma loopStep_keysEq (s : MCPServer) (e : Event) (h : keysEq s) :
    keysEq (s.loopStep e).1 := by
  cases e with
  | timeout => exact h
  | eofLine => exact h
  | badLine => exact h
  | interrupt => exact h
  | msg j => exact dispatch_keysEq s j h

lemma runEvents_keysEq (s : MCPServer) (evs : List Event) (h : keysEq s) :
    keysEq (s.runEvents evs).1 := by
  induction evs generalizing s with
  | nil => exact h
  | cons e es ih =>
    cases e with
    | timeout =>
      simpa [MCPServer.runEvents, MCPServer.loopStep] using ih s h
    | eofLine =>
      simpa [MCPServer.runEvents, MCPServer.loopStep] using ih s h
    | badLine =>
      simpa [MCPServer.runEvents, MCPServer.loopStep] using ih s h
    | interrupt =>
      simpa [MCPServer.runEvents, MCPServer.loopStep] using h
    | msg j =>
      simpa [MCPServer.runEvents, MCPServer.loopStep]
        using ih (s.dispatch j).1 (dispatch_keysEq s j h)

/-- C8: if the two correlation stores list the same ids before an inbound
message is dispatched, they still do afterwards (in fact their id lists
stay equal element for element, which implies set equality), and the same
holds across any whole trace of loop events. -/
theorem correlation_stores_stay_in_step (st : MCPServer) (j : Json) (evs : List Event)
    (h : keysEq st) :
    keysEq (st.dispatch j).1 ∧ keysEq (st.runEvents evs).1 :=
  ⟨dispatch_keysEq st j h, runEvents_keysEq st evs h⟩

/-- All outstanding ticket ids sit strictly below the counter. -/
def counterDominates (s : MCPServer) : Prop :=
  (∀ p ∈ s.sampling_requests, p.1 < s.request_id_counter) ∧
  (∀ p ∈ s.pending_tool_requests, p.1 < s.request_id_counter)

lemma dictHasKey_of_all_lt (l : List (Int × Json)) (c : Int)
    (hall : ∀ p ∈ l, p.1 < c) : dictHasKey l (.num (c : Rat)) = false := by
  rw [dictHasKey, List.any_eq_false]
  intro p hp
  rw [pyEqKey_num_int]
  simp only [decide_eq_true_eq]
  exact (hall p hp).ne'

lemma counterDominates_dictInsert {l : List (Int × Json)} {c : Int} {v : Json}
    (hall : ∀ p ∈ l, p.1 < c) : ∀ p ∈ dictInsert l c v, p.1 < c + 1 := by
  intro p hp
  rcases mem_dictInsert hp with rfl | hmem
  · exact lt_add_one c
  · exact (hall p hmem).trans (lt_add_one c)

/-- C9: the counter starts at the fixed seed 1000; given that every
outstanding ticket id is below the counter (true initially and preserved
by every dispatch), a dispatch either emits no sampling request and keeps
the counter, or emits exactly one sampling request whose id is the current
counter — an id held by no outstanding ticket in either store — and
increments the counter exactly once.  Successive outgoing sampling ids are
therefore strictly increasing and never reuse a pending ticket's id. -/
theorem sampling_ids_fresh_and_counted (st : MCPServer) (j : Json)
    (h : counterDominates st) :
    MCPServer.initial.request_id_counter = 1000 ∧
    counterDominates MCPServer.initial ∧
    counterDominates (st.dispatch j).1 ∧
    ((samplingIdsOf (st.dispatch j).2.1 = [] ∧
      (st.dispatch j).1.request_id_counter = st.request_id_counter) ∨
     (samplingIdsOf (st.dispatch j).2.1 = [st.request_id_counter] ∧
      (st.dispatch j).1.request_id_counter = st.request_id_counter + 1 ∧
      dictHasKey st.sampling_requests (.num (st.request_id_counter : Rat)) = false ∧
      dictHasKey st.pending_tool_requests (.num (st.request_id_counter : Rat)) = false)) := by
  obtain ⟨hs, hpnd⟩ := h
  refine ⟨rfl, ⟨by simp [MCPServer.initial], by simp [MCPServer.initial]⟩, ?_, ?_⟩
  · rcases dispatch_cases st j with ⟨text, hd⟩ | ⟨_, _, hst | hst⟩
    · rw [hd]
      exact ⟨counterDominates_dictInsert hs, counterDominates_dictInsert hpnd⟩
    · rw [hst]; exact ⟨hs, hpnd⟩
    · rw [hst]
      constructor
      · intro p hp
        exact hs p (List.mem_of_mem_eraseP (by rwa [← dictPop_snd]))
      · intro p hp
        exact hpnd p (List.mem_of_mem_eraseP (by rwa [← dictPop_snd]))
  · rcases dispatch_cases st j with ⟨text, hd⟩ | ⟨hc, hids, _⟩
    · right
      rw [hd]
      exact ⟨rfl, rfl, dictHasKey_of_all_lt _ _ hs, dictHasKey_of_all_lt _ _ hpnd⟩
    · left
      exact ⟨hids, hc⟩

/-!
## Concrete scenarios
-/

/-- State after one `generate_poem` call (id 5, text "storm"): one pending
ticket with sampling id 1000. -/
def oneTicketState : MCPServer :=
  (MCPServer.initial.dispatch (generatePoemCall (.num 5) "storm")).1

/-- State after two interleaved `generate_poem` calls (ids 1 and 2): two
pending tickets with sampling ids 1000 and 1001. -/
def twoTicketState : MCPServer :=
  ((MCPServer.initial.dispatch (generatePoemCall (.num 1) "alpha")).1.dispatch
      (generatePoemCall (.num 2) "beta")).1

/-- C1 witness: with two tickets pending, resolving the second-minted id
1001 first still routes the reply to caller id 2 with its own argument. -/
theorem sampling_success_routes_witness :
    twoTicketState.dispatch (samplingSuccess 1001 "verse") =
      ({ twoTicketState with
           sampling_requests := [(1000, Json.str "alpha")],
           pending_tool_requests := [(1000, generatePoemCall (.num 1) "alpha")] },
       [toolSuccessMsg (.num 2) (.str "beta") (.str "verse")], none) :=
  sampling_success_routes_to_original_caller twoTicketState 1001 "beta" "verse"
    (generatePoemCall (.num 2) "beta") (.num 2)
    [(1000, Json.str "alpha")] [(1000, generatePoemCall (.num 1) "alpha")]
    (by rfl) (by rfl) (by rfl) (by rfl)

/-- C3 witness: an error-shaped response resolves the ticket into a -32603
reply embedding the upstream error, keyed by the original id 5. -/
theorem sampling_error_routes_witness :
    oneTicketState.dispatch
        (samplingErrorResponse 1000 (.obj [("code", .num (-1)), ("message", .str "boom")])) =
      ({ oneTicketState with sampling_requests := [], pending_tool_requests := [] },
       [toolErrorMsg (.num 5)
          "Sampling failed: \x7b\x27code\x27: -1, \x27message\x27: \x27boom\x27\x7d"],
       none) :=
  sampling_error_routes_tool_error oneTicketState 1000 (.str "storm")
    (generatePoemCall (.num 5) "storm") (.num 5)
    (.obj [("code", .num (-1)), ("message", .str "boom")]) [] []
    (by rfl) (by rfl) (by rfl) (by rfl)

/-- C4 witness (amended claim): an object content typed "image" yields the
fixed -32603 format-error reply keyed by the original id 5. -/
theorem format_error_witness :
    oneTicketState.dispatch (samplingContentResponse 1000 (.obj [("type", .str "image")])) =
      ({ oneTicketState with sampling_requests := [], pending_tool_requests := [] },
       [toolErrorMsg (.num 5) "Unexpected response format from sampling"], none) :=
  non_text_object_content_yields_format_error oneTicketState 1000 (.str "storm")
    (generatePoemCall (.num 5) "storm") (.num 5) [("type", .str "image")] [] []
    (by rfl) (by rfl) (by rfl) (by rfl) (by rfl)

/-- C7 witness: resolving ticket 1000 once removes it; a duplicate
response with the same id then produces no output and no state change. -/
theorem ticket_destroyed_once_witness :
    dictHasKey
        ((oneTicketState.dispatch (Json.obj (("id", Json.num ((1000 : Int) : Rat)) ::
            [("result", Json.obj [("content",
              Json.obj [("type", Json.str "text"), ("text", Json.str "p")])])]))).1).sampling_requests
        (.num ((1000 : Int) : Rat)) = false ∧
    ((oneTicketState.dispatch (Json.obj (("id", Json.num ((1000 : Int) : Rat)) ::
        [("result", Json.obj [("content",
          Json.obj [("type", Json.str "text"), ("text", Json.str "p")])])]))).1).dispatch
        (Json.obj (("id", Json.num ((1000 : Int) : Rat)) :: [("error", Json.str "late")])) =
      ((oneTicketState.dispatch (Json.obj (("id", Json.num ((1000 : Int) : Rat)) ::
          [("result", Json.obj [("content",
            Json.obj [("type", Json.str "text"), ("text", Json.str "p")])])]))).1,
       [], none) :=
  ticket_destroyed_exactly_once oneTicketState 1000
    [("result", Json.obj [("content",
        Json.obj [("type", Json.str "text"), ("text", Json.str "p")])])]
    [("error", Json.str "late")]
    (by decide) (by rfl) (by rfl) (by rfl)

/-- C8 witness: the two stores list the same ids after a call and across a
whole call/response trace from the initial state. -/
theorem correlation_stores_witness :
    keysEq ((MCPServer.initial.dispatch (generatePoemCall (.num 1) "w")).1) ∧
    keysEq ((MCPServer.initial.runEvents
        [Event.msg (generatePoemCall (.num 1) "w"),
         Event.msg (samplingSuccess 1000 "p")]).1) :=
  correlation_stores_stay_in_step MCPServer.initial (generatePoemCall (.num 1) "w")
    [Event.msg (generatePoemCall (.num 1) "w"), Event.msg (samplingSuccess 1000 "p")] rfl

/-- C9 witness: from the one-ticket state (counter 1001), a second call
emits exactly the sampling request with the fresh id 1001 — an id held by
no outstanding ticket — and bumps the counter to 1002. -/
theorem sampling_ids_witness :
    MCPServer.initial.request_id_counter = 1000 ∧
    counterDominates MCPServer.initial ∧
    counterDominates ((oneTicketState.dispatch (generatePoemCall (.num 9) "sea")).1) ∧
    ((samplingIdsOf ((oneTicketState.dispatch (generatePoemCall (.num 9) "sea")).2.1) = [] ∧
      ((oneTicketState.dispatch (generatePoemCall (.num 9) "sea")).1).request_id_counter =
        oneTicketState.request_id_counter) ∨
     (samplingIdsOf ((oneTicketState.dispatch (generatePoemCall (.num 9) "sea")).2.1) =
        [oneTicketState.request_id_counter] ∧
      ((oneTicketState.dispatch (generatePoemCall (.num 9) "sea")).1).request_id_counter =
        oneTicketState.request_id_counter + 1 ∧
      dictHasKey oneTicketState.sampling_requests
        (.num (oneTicketState.request_id_counter : Rat)) = false ∧
      dictHasKey oneTicketState.pending_tool_requests
        (.num (oneTicketState.request_id_counter : Rat)) = false)) :=
  sampling_ids_fresh_and_counted oneTicketState (generatePoemCall (.num 9) "sea")
    ⟨by decide, by decide⟩

/-- C10 witness: a call to an unrecognized tool name changes nothing and
writes nothing. -/
theorem unknown_tool_witness :
    MCPServer.initial.dispatch (toolsCallMsg (.num 3) "other_tool" (.obj [])) =
      (MCPServer.initial, [], none) :=
  unknown_tool_name_is_silent MCPServer.initial (.num 3) "other_tool" (.obj []) (by decide)

/-- C6 witness: a response whose ticket exists but whose content is a
string makes the handler raise; the loop signals `cont`, keeps processing,
and the unrelated ticket 1000 survives; a bad line is fully transparent. -/
theorem malformed_lines_witness :
    twoTicketState.loopStep Event.badLine = (twoTicketState, [], StepSignal.cont) ∧
    (twoTicketState.loopStep
        (Event.msg (samplingContentResponse 1001 (.str "oops")))).2.2 = StepSignal.cont ∧
    twoTicketState.runEvents (Event.badLine :: []) = twoTicketState.runEvents [] ∧
    twoTicketState.runEvents (Event.msg (samplingContentResponse 1001 (.str "oops")) :: []) =
      (((twoTicketState.dispatch (samplingContentResponse 1001 (.str "oops"))).1.runEvents []).1,
       (twoTicketState.dispatch (samplingContentResponse 1001 (.str "oops"))).2.1 ++
         ((twoTicketState.dispatch (samplingContentResponse 1001 (.str "oops"))).1.runEvents []).2) ∧
    (1000, Json.str "alpha") ∈
      (twoTicketState.dispatch (samplingContentResponse 1001 (.str "oops"))).1.sampling_requests :=
  malformed_lines_never_crash_loop twoTicketState
    (samplingContentResponse 1001 (.str "oops")) []
    "AttributeError: object has no attribute get" (1000, Json.str "alpha")
    (by rfl) (List.mem_cons_self _ _) (by rfl)
